import Mathlib

/-!
Verification of the US News crawler's download and navigation layer.

The Python sources embedded here are:
* `usnews_scraper/selenium/config.py` — status-code constants;
* `usnews_scraper/selenium/navigation.py` — error classification
  (`get_error_info`, `is_error_response`, `is_permanent_error`);
* `usnews_scraper/selenium/session_manager.py` — session application;
* `usnews_scraper/html_downloader.py` — URL construction, slugging,
  redirect detection, widget truncation, dedup-saving and the
  per-university download loop.

Side-effecting browser interactions are modelled by an explicit
environment: each navigation consumes one `FetchOutcome` describing what
the browser would report (navigation success, HTTP status, final URL,
page source).  File writes are accumulated in a list; wall-clock sleeps
are recorded as a list of the waited durations.
-/

namespace UsnewsCrawler

/-! ### String utilities modelling the Python primitives used by the code -/

/-- Index of the first occurrence of `pat` in a character list, as in
Python `str.find` (codepoint index), or `none` when absent. -/
def findSub (pat : List Char) : List Char → Option Nat
  | [] => if pat.isEmpty then some 0 else none
  | c :: rest =>
    if pat.isPrefixOf (c :: rest) then some 0
    else (findSub pat rest).map (· + 1)

/-- Python `haystack.find(pat)` on strings (`none` instead of `-1`). -/
def strFind (s pat : String) : Option Nat := findSub pat.data s.data

/-- Python `pat in s` (substring containment). -/
def containsSubstr (s pat : String) : Bool := (strFind s pat).isSome

/-- Python `str.lower()` (ASCII range, which is all the code compares). -/
def lowerStr (s : String) : String := ⟨s.data.map Char.toLower⟩

/-- Python `str.strip("/")`. -/
def stripSlashes (s : String) : String :=
  ⟨((s.data.dropWhile (· == '/')).reverse.dropWhile (· == '/')).reverse⟩

/-- Python `s.startswith(p)`. -/
def startsWithStr (s p : String) : Bool := p.data.isPrefixOf s.data

/-- Python `s.endswith(p)`. -/
def endsWithStr (s p : String) : Bool := p.data.reverse.isPrefixOf s.data.reverse

/-- Python `str.split(sep)` for a single-character separator. -/
def splitOnChar (sep : Char) : List Char → List (List Char)
  | [] => [[]]
  | c :: rest =>
    if c == sep then [] :: splitOnChar sep rest
    else
      match splitOnChar sep rest with
      | h :: t => (c :: h) :: t
      | [] => [[c]]

/-- The `path` component of `urllib.parse.urlparse`, for the URL shapes
the crawler handles: if the string contains `"://"` the scheme and
authority are stripped, then any query or fragment is cut off.
(Protocol-relative `//host/...` forms are not distinguished.) -/
def urlparsePath (url : String) : String :=
  let noSchemeHost :=
    match strFind url "://" with
    | some i =>
      let rest := url.data.drop (i + 3)
      match findSub "/".data rest with
      | some j => rest.drop j
      | none => []
    | none => url.data
  ⟨noSchemeHost.takeWhile (fun c => c != '?' && c != '#')⟩

/-! ### selenium/config.py constants -/

def NETWORK_ERROR_URL_INDICATORS : List String :=
  ["chrome-error://", "chrome://network-error/"]

def PERMANENT_STATUS_CODES : List Nat := [404, 410]

def RETRY_POSSIBLE_CODES : List Nat := [408, 429]

/-! ### selenium/navigation.py — error classification -/

/-- What `NavigationManager` can observe after a navigation: the HTTP
status (`none` when it could not be determined), the current URL, and
the page source (`none` when reading `driver.page_source` raises). -/
structure NavOutcome where
  status : Option Nat
  currentUrl : String
  source : Option String
deriving DecidableEq

/-- The dictionary returned by `get_error_info`. -/
structure ErrorInfo where
  status : Option Nat
  type : Option String
deriving DecidableEq

/-- The Akamai-CDN-error test of `get_error_info`: marker in the current
URL, or (when the page source is readable) in the page source. -/
def cdnError (o : NavOutcome) : Bool :=
  containsSubstr o.currentUrl "errors.edgesuite.net" ||
    (match o.source with
     | some src =>
       containsSubstr src "errors.edgesuite.net" || containsSubstr src "Reference #"
     | none => false)

/-- The status-code ladder of `get_error_info` (navigation.py, lines
178-201). `netIndicator` says whether the current URL contains one of
`NETWORK_ERROR_URL_INDICATORS`. -/
def classify_status (status : Option Nat) (netIndicator : Bool) : ErrorInfo :=
  match status with
  | none =>
    ⟨none, some (if netIndicator then "네트워크 연결 실패" else "네트워크 에러 (연결 문제)")⟩
  | some st =>
    if st = 0 then
      ⟨some 0, some (if netIndicator then "네트워크 연결 실패" else "네트워크 에러 (연결 문제)")⟩
    else if st = 404 then ⟨some st, some "페이지 없음 (404)"⟩
    else if st = 403 then ⟨some st, some "접근 권한 없음 (403)"⟩
    else if st = 401 then ⟨some st, some "인증 필요 (401)"⟩
    else if st = 500 then ⟨some st, some "서버 내부 에러 (500)"⟩
    else if st = 502 then ⟨some st, some "게이트웨이 에러 (502)"⟩
    else if st = 503 then ⟨some st, some "서비스 이용 불가 (503)"⟩
    else if 400 ≤ st ∧ st < 500 then
      ⟨some st, some ("클라이언트 에러 (" ++ toString st ++ ")")⟩
    else if 500 ≤ st then ⟨some st, some ("서버 에러 (" ++ toString st ++ ")")⟩
    else ⟨some st, none⟩

/-- `NavigationManager.get_error_info`. -/
def get_error_info (o : NavOutcome) : ErrorInfo :=
  if cdnError o then ⟨o.status, some "Akamai CDN 에러 (스킵)"⟩
  else
    classify_status o.status
      (NETWORK_ERROR_URL_INDICATORS.any (fun ind => containsSubstr o.currentUrl ind))

/-- `NavigationManager.is_error_response`. -/
def is_error_response (o : NavOutcome) : Bool :=
  let info := get_error_info o
  match info.status with
  | none => info.type.isSome
  | some st => st == 0 || decide (400 ≤ st)

/-- `NavigationManager.get_error_type`. -/
def get_error_type (o : NavOutcome) : Option String := (get_error_info o).type

/-- `NavigationManager.is_permanent_error`. -/
def is_permanent_error (o : NavOutcome) : Bool :=
  let info := get_error_info o
  let akamai :=
    match info.type with
    | some t => containsSubstr t "Akamai CDN 에러"
    | none => false
  if akamai then true
  else
    match info.status with
    | some st =>
      if st ∈ PERMANENT_STATUS_CODES then true
      else if 400 ≤ st ∧ st < 500 then decide (st ∉ RETRY_POSSIBLE_CODES)
      else false
    | none => false

/-! ### html_downloader.py — constants, URL construction, paths -/

/-- Supported page types (`PAGE_TYPES`), the empty string being the
main page. -/
def PAGE_TYPES : List String :=
  ["", "overall-rankings", "applying", "paying", "academics", "student-life",
   "campus-info"]

def BASE_URL : String := "https://premium.usnews.com"

/-- `HTMLDownloader.construct_url_from_link`. -/
def construct_url_from_link (link page_type : String) : String :=
  let pt := stripSlashes page_type
  if link = "" then BASE_URL
  else
    let path := if containsSubstr link "://" then urlparsePath link else link
    let path2 := if startsWithStr path "/" then path else "/" ++ path
    if pt = "" then BASE_URL ++ path2 else BASE_URL ++ path2 ++ "/" ++ pt

/-- Python `s.replace(a, b)` for single characters. -/
def replaceChar (s : String) (a b : Char) : String :=
  ⟨s.data.map (fun c => if c == a then b else c)⟩

/-- Python `s.replace(c, r)` for a single-character needle and an
arbitrary replacement string, on character lists. -/
def pyReplaceChar (c : Char) (r : List Char) (l : List Char) : List Char :=
  l.flatMap (fun x => if x == c then r else [x])

/-- The keep-predicate of `_slugify_name`:
`c.isalnum() or c in '_-'`. -/
def keepChar (c : Char) : Bool := c.isAlphanum || c == '_' || c == '-'

/-- `HTMLDownloader._slugify_name`. -/
def _slugify_name (name : String) : String :=
  let n1 := pyReplaceChar ' ' ['_'] name.data
  let n2 := pyReplaceChar '&' ['a', 'n', 'd'] n1
  let n3 := pyReplaceChar ',' [] n2
  let n4 := pyReplaceChar '.' [] n3
  ⟨n4.filter keepChar⟩

/-- `HTMLDownloader.generate_filename_and_path`; `os.path.join` is
modelled as insertion of a single separator. -/
def generate_filename_and_path (downloads_dir name page_type : String) :
    String × String :=
  let safe := _slugify_name name
  let dir := downloads_dir ++ "/" ++ safe
  let fname :=
    if page_type = "" then "main.html"
    else replaceChar page_type '-' '_' ++ ".html"
  (dir, fname)

/-- The slug exactly as claim C8 words it, in a single character pass:
spaces become underscores, `&` becomes `and`, commas and periods are
removed, and every other character that is not alphanumeric, `_` or `-`
is dropped. -/
def slug_spec_step (c : Char) : List Char :=
  if c == ' ' then ['_']
  else if c == '&' then ['a', 'n', 'd']
  else if c == ',' || c == '.' then []
  else if keepChar c then [c] else []

/-- Claim-side restatement of the slug, to be compared with the
source's `_slugify_name`. -/
def slug_spec (name : String) : String := ⟨name.data.flatMap slug_spec_step⟩

/-! ### Canonical-link extraction (`CANONICAL_RE`)

The compiled pattern is
`<link[^>]+rel="canonical"[^>]+href="([^"]+)` with `IGNORECASE`.
We model `re.search` as the leftmost position at which the pattern
matches, resolving each quantifier lazily; on tags whose attributes
contain a single `rel="canonical"` and a single `href="` (every input
considered in this development) this coincides with the greedy
backtracking answer. -/

/-- Case-insensitive literal-prefix test (the literal must be given in
lowercase). -/
def ciPrefixAt (lit s : List Char) : Bool :=
  (s.take lit.length).map Char.toLower == lit

/-- Consume `[^>]+` (at least one character, none of them `>`), then the
given lowercase literal; returns the remainder after the literal. -/
def seekInTag (lit : List Char) : List Char → Bool → Option (List Char)
  | [], _ => none
  | c :: rest, consumed =>
    if consumed && ciPrefixAt lit (c :: rest) then some ((c :: rest).drop lit.length)
    else if c == '>' then none
    else seekInTag lit rest true

/-- Try to match `CANONICAL_RE` at the start of `s`; returns the capture
group (the `href` value up to the closing quote). -/
def canonicalAt (s : List Char) : Option String :=
  if ciPrefixAt "<link".data s then
    match seekInTag ("rel=\"canonical\"").data (s.drop 5) false with
    | none => none
    | some a1 =>
      match seekInTag ("href=\"").data a1 false with
      | none => none
      | some a2 =>
        let capt := a2.takeWhile (· != '"')
        if capt.isEmpty then none else some ⟨capt⟩
  else none

/-- `CANONICAL_RE.search(html).group(1)`: first position where the
pattern matches. -/
def canonicalSearch : List Char → Option String
  | [] => none
  | c :: rest =>
    match canonicalAt (c :: rest) with
    | some r => some r
    | none => canonicalSearch rest

def canonicalHref (html : String) : Option String := canonicalSearch html.data

/-! ### Redirect detection and login check -/

/-- The local `_ends_with_segment` of `_redirected_to_main`: the last
nonempty `/`-segment of the URL's path equals `segment`. -/
def _ends_with_segment (full_url segment : String) : Bool :=
  let segs := (splitOnChar '/' (urlparsePath full_url).data).filter (fun s => !s.isEmpty)
  match segs.getLast? with
  | some s => s == segment.data
  | none => false

/-- `_redirected_to_main` (html_downloader.py, lines 261-276). -/
def _redirected_to_main (current_url html_text expected_page_type : String) :
    Bool :=
  if expected_page_type = "" then false
  else if current_url ≠ "" ∧ _ends_with_segment current_url expected_page_type = false
    then true
  else
    match canonicalHref html_text with
    | some href => !(_ends_with_segment href expected_page_type)
    | none => false

/-- Python word characters (`\w`, ASCII range). -/
def wordChar (c : Char) : Bool := c.isAlphanum || c == '_'

/-- `re.search(r"\bW\b", s, IGNORECASE) is not None` for a fixed
lowercase word `w`; `prev` holds the character before the current
position. -/
def hasWordCIAux (w : List Char) : Option Char → List Char → Bool
  | _, [] => false
  | prev, c :: rest =>
    (ciPrefixAt w (c :: rest)
      && (match prev with | some p => !(wordChar p) | none => true)
      && (match (c :: rest).drop w.length with
          | [] => true
          | d :: _ => !(wordChar d)))
    || hasWordCIAux w (some c) rest

def hasWordCI (w s : String) : Bool := hasWordCIAux w.data none s.data

/-- `HTMLDownloader._check_login_status`.  The sign-in patterns of the
source return `False`, as does the final default, so they collapse to
the single `else false`. -/
def _check_login_status (html : String) : Bool :=
  match canonicalHref html with
  | some canonical_url =>
    if containsSubstr canonical_url "premium.usnews.com" then true
    else if containsSubstr canonical_url "www.usnews.com" then false
    else if hasWordCI "sign out" html || hasWordCI "log out" html then true
    else false
  | none =>
    if hasWordCI "sign out" html || hasWordCI "log out" html then true
    else false

/-! ### Widget truncation -/

/-- The marker list of `_find_widget_cut_index`. -/
def WIDGET_MARKERS : List String :=
  ["<div id=\"blueshift-recommendations-widget\"",
   "id=\"blueshift-recommendations-widget\"",
   "blueshift-recommendations-widget",
   "<div id=\"null-recommendations-widget\"",
   "id=\"null-recommendations-widget\"",
   "null-recommendations-widget",
   "SailthruRecommend__Container"]

/-- One iteration of the marker loop in `_find_widget_cut_index`. -/
def widgetStep (html : String) (earliest : Option Nat) (m : String) :
    Option Nat :=
  match strFind html m with
  | none => earliest
  | some idx =>
    match earliest with
    | none => some idx
    | some e => if idx < e then some idx else earliest

/-- `HTMLDownloader._find_widget_cut_index`. -/
def _find_widget_cut_index (html : String) : Option Nat :=
  WIDGET_MARKERS.foldl (widgetStep html) none

/-- The truncation applied in `download_university_page` (lines 471-481):
cut only when a marker was found at a positive offset. -/
def widget_truncate (html : String) : String :=
  match _find_widget_cut_index html with
  | some i =>
    if 0 < i then
      ⟨html.data.take i⟩ ++ "\n<!-- Truncated before recommendations widget -->\n"
    else html
  | none => html

/-! ### The download pipeline

`download_university_page` and `download_all_pages` interact with a
browser.  The browser is modelled by an environment inside the state:
each navigation consumes one `FetchOutcome` (an empty environment means
the driver no longer answers, i.e. the navigation fails), and each call
to `_restart_chrome_and_relogin` consumes one `Bool`.  The per-attempt
`get_page_source` retry loops of the source collapse here because the
page source is a fixed value per navigation.  Timeouts, sleeps inside
retries and the session reapplication (which only touches the browser)
have no observable effect in this model.  `sha256` is abstracted as a
function parameter `hashFn`. -/

/-- What one navigation produces: whether `navigate_to` succeeded, and
the status / current URL / page source the driver then reports. -/
structure FetchOutcome where
  navOk : Bool
  status : Option Nat
  url : String
  source : Option String
deriving DecidableEq

def FetchOutcome.toNav (f : FetchOutcome) : NavOutcome :=
  ⟨f.status, f.url, f.source⟩

/-- The fields of `DownloaderConfig` that are observable in the model. -/
structure DlConfig where
  truncate_at_widget : Bool := true
  downloads_dir : String := "downloads"
  wait_success_seconds : Nat := 15
  wait_skip_seconds : Nat := 15
deriving DecidableEq

/-- Mutable state threaded through a run: the remaining browser
environment, the remaining relogin outcomes, the per-university content
hash set (`_current_university_hashes`) and the list of performed file
writes, most recent first. -/
structure DlState where
  env : List FetchOutcome
  relogins : List Bool
  hashes : List String
  writes : List (String × String)
deriving DecidableEq

/-- One `navigate_to` call: consume the next fetch outcome. -/
def navigate (st : DlState) : Option FetchOutcome × DlState :=
  match st.env with
  | [] => (none, st)
  | f :: rest => (if f.navOk then some f else none, { st with env := rest })

/-- The navigation/error retry loop of `download_university_page`
(lines 326-347): permanent errors abort, transient errors retry while
fuel remains (`max_retries`, 3 by default). -/
def navErrorLoop (fuel : Nat) (st : DlState) : Option FetchOutcome × DlState :=
  match navigate st with
  | (none, st1) => (none, st1)
  | (some f, st1) =>
    if is_error_response f.toNav then
      if is_permanent_error f.toNav then (none, st1)
      else
        match fuel with
        | 0 => (none, st1)
        | fuel' + 1 => navErrorLoop fuel' st1
    else (some f, st1)

/-- The content-extraction loop (lines 350-411): with a fixed page
source per navigation it succeeds exactly when the source is present
and nonempty. -/
def extractContent (src : Option String) : Option String :=
  match src with
  | none => none
  | some s => if s = "" then none else some s

/-- The redirect-handling block (lines 413-437): on a first mismatch,
reapply the session and retry the navigation once; abort when the retry
fails, yields no content, or is still redirected. -/
def redirectPhase (pt url html : String) (st : DlState) :
    Option String × DlState :=
  if pt ≠ "" ∧ _redirected_to_main url html pt then
    match navigate st with
    | (none, st2) => (none, st2)
    | (some g, st2) =>
      match g.source with
      | none => (none, st2)
      | some h2 =>
        if h2 = "" then (none, st2)
        else if _redirected_to_main g.url h2 pt then (none, st2)
        else (some h2, st2)
  else (some html, st)

/-- The login-check block (lines 439-469).  A failing check triggers
`_restart_chrome_and_relogin` (one `Bool` consumed); on success the page
is refetched and `html_content` is overwritten by whatever
`get_page_source` returns — including Python `None`, which this model
propagates as `none` (it later makes `_save_html` fail). -/
def loginPhase (st : DlState) (html : String) : Option String × DlState :=
  if _check_login_status html then (some html, st)
  else
    match st.relogins with
    | [] => (some html, st)
    | b :: rest =>
      let st1 : DlState := { st with relogins := rest }
      if b then
        match navigate st1 with
        | (none, st2) => (some html, st2)
        | (some h, st2) =>
          match h.source with
          | none => (none, st2)
          | some s => (some s, st2)
      else (some html, st1)

/-- The widget-truncation block (lines 471-483); a `None` content makes
the lookup raise, which the source catches keeping the content as is. -/
def truncPhase (truncate : Bool) (html : Option String) : Option String :=
  match html with
  | none => none
  | some h => if truncate then some (widget_truncate h) else some h

/-- `_save_html` (lines 278-311): dedupe on the content hash, then
write.  A `none` content makes the write raise, caught as failure. -/
def save_html (hashFn : String → String) (cfg : DlConfig)
    (uni_name ptype : String) (html : Option String) (st : DlState) :
    Option String × DlState :=
  match html with
  | none => (none, st)
  | some content =>
    let dir_fname := generate_filename_and_path cfg.downloads_dir uni_name ptype
    let path := dir_fname.1 ++ "/" ++ dir_fname.2
    let h := hashFn content
    if h ∈ st.hashes then (none, st)
    else
      (some path,
       { st with hashes := h :: st.hashes, writes := (path, content) :: st.writes })

/-- University catalog entry (`name` and `link` from universities.json). -/
structure UniInfo where
  name : String
  link : String
deriving DecidableEq

/-- `HTMLDownloader.find_university_by_name` (case-insensitive substring
match, first hit wins). -/
def find_university_by_name (universities : List UniInfo)
    (university_name : String) : Option UniInfo :=
  universities.find?
    (fun u => containsSubstr (lowerStr u.name) (lowerStr university_name))

/-- `HTMLDownloader.download_university_page` for a known university. -/
def download_university_page (hashFn : String → String) (cfg : DlConfig)
    (uni : UniInfo) (page_type : String) (st : DlState) :
    Option String × DlState :=
  if page_type ∈ PAGE_TYPES then
    match navErrorLoop 3 st with
    | (none, st1) => (none, st1)
    | (some f, st1) =>
      match extractContent f.source with
      | none => (none, st1)
      | some html =>
        match redirectPhase page_type f.url html st1 with
        | (none, st2) => (none, st2)
        | (some html1, st2) =>
          match loginPhase st2 html1 with
          | (html2, st3) =>
            save_html hashFn cfg uni.name page_type
              (truncPhase cfg.truncate_at_widget html2) st3
  else (none, st)

/-- Result of a `download_all_pages` run: the list of saved file paths,
the pacing delays slept between page types, and the final state. -/
structure RunResult where
  files : List String
  waits : List Nat
  st : DlState
deriving DecidableEq

/-- The per-page-type loop of `download_all_pages` (lines 599-621): a
failed main page breaks out of the loop; a pacing delay is slept after
every page type except the last, chosen by whether a file was saved. -/
def pageLoop (hashFn : String → String) (cfg : DlConfig) (uni : UniInfo) :
    List String → List String → List Nat → DlState → RunResult
  | [], acc, ws, st => ⟨acc, ws, st⟩
  | pt :: rest, acc, ws, st =>
    match download_university_page hashFn cfg uni pt st with
    | (some p, st1) =>
      let ws1 := if rest = [] then ws else ws ++ [cfg.wait_success_seconds]
      pageLoop hashFn cfg uni rest (acc ++ [p]) ws1 st1
    | (none, st1) =>
      if pt = "" then ⟨acc, ws, st1⟩
      else
        let ws1 := if rest = [] then ws else ws ++ [cfg.wait_skip_seconds]
        pageLoop hashFn cfg uni rest acc ws1 st1

/-- `HTMLDownloader.download_all_pages`.  `fs` is the directory listing
visible to the existing-directory gate (lines 573-586): directory path
to the file names it contains.  The hash store is reset before the
loop (line 597). -/
def download_all_pages (hashFn : String → String) (cfg : DlConfig)
    (universities : List UniInfo) (fs : List (String × List String))
    (university_name : String) (env : List FetchOutcome)
    (relogins : List Bool) : RunResult :=
  match find_university_by_name universities university_name with
  | none => ⟨[], [], ⟨env, relogins, [], []⟩⟩
  | some info =>
    let dir := (generate_filename_and_path cfg.downloads_dir info.name "").1
    match fs.lookup dir with
    | some files =>
      let existing := files.filter (fun f => endsWithStr f ".html")
      if PAGE_TYPES.length ≤ existing.length then
        ⟨existing.map (fun f => dir ++ "/" ++ f), [], ⟨env, relogins, [], []⟩⟩
      else pageLoop hashFn cfg info PAGE_TYPES [] [] ⟨env, relogins, [], []⟩
    | none => pageLoop hashFn cfg info PAGE_TYPES [] [] ⟨env, relogins, [], []⟩

/-! ### selenium/session_manager.py — session application -/

/-- A captured cookie (the fields `apply_session_to_current_driver`
reads). -/
structure Cookie where
  name : String
  value : String
  domain : Option String
  path : String := "/"
  secure : Bool := false
  httpOnly : Bool := false
  expiry : Option Nat := none
deriving DecidableEq

/-- The captured session (`session_cookies`, `local_storage_items`,
`session_storage_items`). -/
structure SessionState where
  session_cookies : List Cookie
  local_storage_items : List (String × String)
  session_storage_items : List (String × String)
deriving DecidableEq

/-- Driver interactions performed while applying a session. -/
inductive SessionAction where
  | navigate (origin : String)
  | setLocal (k v : String)
  | setSession (k v : String)
  | addCookie (c : Cookie)
deriving DecidableEq

/-- `urlparse(origin).hostname or ""`: the lowercased host between the
scheme and the first `/` or `:` (no userinfo handling — the code only
passes plain origins). -/
def hostnameOf (origin : String) : String :=
  match strFind origin "://" with
  | some i =>
    lowerStr ⟨(origin.data.drop (i + 3)).takeWhile (fun c => c != '/' && c != ':')⟩
  | none => ""

/-- `list(dict.fromkeys(origins))`: deduplicate preserving first
occurrences. -/
def dedupPreserve (l : List String) : List String :=
  l.foldl (fun acc x => if x ∈ acc then acc else acc ++ [x]) []

/-- The driver actions for a single origin, and whether any item was
applied there (navigation alone does not count). -/
def applyOriginActions (ss : SessionState) (origin : String) :
    List SessionAction × Bool :=
  let locals := ss.local_storage_items.map (fun kv => SessionAction.setLocal kv.1 kv.2)
  let sessions :=
    ss.session_storage_items.map (fun kv => SessionAction.setSession kv.1 kv.2)
  let host := hostnameOf origin
  let cookies := ss.session_cookies.filterMap (fun c =>
    let cookie_domain : String := ⟨(c.domain.getD host).data.dropWhile (· == '.')⟩
    if endsWithStr host cookie_domain then some (SessionAction.addCookie c) else none)
  (SessionAction.navigate origin :: (locals ++ sessions ++ cookies),
   !(locals.isEmpty && sessions.isEmpty && cookies.isEmpty))

/-- `SessionManager.apply_session_to_current_driver`, with all driver
operations succeeding.  Returns the `applied_any` result and the list of
driver interactions performed.  The function is total: nothing can
raise. -/
def apply_session_to_current_driver (ss : SessionState)
    (driverPresent : Bool) (origins : List String) :
    Bool × List SessionAction :=
  if !driverPresent then (false, [])
  else if ss.session_cookies.isEmpty && ss.local_storage_items.isEmpty
      && ss.session_storage_items.isEmpty then (false, [])
  else
    let unique_origins := dedupPreserve origins
    let per_origin := unique_origins.map (applyOriginActions ss)
    (per_origin.any (·.2), per_origin.flatMap (·.1))

/-! ## Theorems -/

/-- C1: over the matrix of synthetic navigation outcomes (any current
URL and readable page source free of CDN-error markers),
`is_permanent_error` is true exactly for 401, 403, 404, 410 and the
CDN-error page, false for 408, 429, 500, 502, 503 and zero/absent
status; a 200 response is classified as no error at all. -/
theorem C1_error_classification (url page : String)
    (h1 : containsSubstr url "errors.edgesuite.net" = false)
    (h2 : containsSubstr page "errors.edgesuite.net" = false)
    (h3 : containsSubstr page "Reference #" = false) :
    is_permanent_error ⟨some 401, url, some page⟩ = true ∧
    is_permanent_error ⟨some 403, url, some page⟩ = true ∧
    is_permanent_error ⟨some 404, url, some page⟩ = true ∧
    is_permanent_error ⟨some 410, url, some page⟩ = true ∧
    is_permanent_error ⟨some 408, url, some page⟩ = false ∧
    is_permanent_error ⟨some 429, url, some page⟩ = false ∧
    is_permanent_error ⟨some 500, url, some page⟩ = false ∧
    is_permanent_error ⟨some 502, url, some page⟩ = false ∧
    is_permanent_error ⟨some 503, url, some page⟩ = false ∧
    is_permanent_error ⟨some 0, url, some page⟩ = false ∧
    is_permanent_error ⟨none, url, some page⟩ = false ∧
    is_permanent_error ⟨none, "https://u", some "Reference #18.abc"⟩ = true ∧
    get_error_info ⟨some 200, url, some page⟩ = ⟨some 200, none⟩ ∧
    is_error_response ⟨some 200, url, some page⟩ = false := by
  have hcdn : ∀ st : Option Nat, cdnError ⟨st, url, some page⟩ = false := by
    intro st
    simp [cdnError, h1, h2, h3]
  simp only [is_permanent_error, is_error_response, get_error_info, hcdn,
    Bool.false_eq_true, if_false]
  generalize NETWORK_ERROR_URL_INDICATORS.any (fun ind => containsSubstr url ind) = nf
  cases nf <;>
    refine ⟨?_, ?_, ?_, ?_, ?_, ?_, ?_, ?_, ?_, ?_, ?_, ?_, ?_, ?_⟩ <;> decide

/-- Witness for C1 at a concrete clean outcome. -/
theorem C1_error_classification_witness :
    is_permanent_error ⟨some 401, "https://premium.usnews.com/x", some "<html>ok</html>"⟩ = true :=
  (C1_error_classification "https://premium.usnews.com/x" "<html>ok</html>"
    (by decide) (by decide) (by decide)).1

/-- C7: for a site-relative catalog link and any supported page type,
the constructed URL is the fixed origin, the link path, and — except for
the main/empty page type, where both are omitted — a `/` plus the page
type. -/
theorem C7_construct_url (link pt : String)
    (h1 : link ≠ "") (h2 : containsSubstr link "://" = false)
    (h3 : startsWithStr link "/" = true) (h4 : pt ∈ PAGE_TYPES) :
    construct_url_from_link link pt =
      if pt = "" then BASE_URL ++ link else BASE_URL ++ link ++ "/" ++ pt := by
  have hs : stripSlashes pt = pt := by fin_cases h4 <;> decide
  simp only [construct_url_from_link, hs, h2, h3, Bool.false_eq_true, if_false,
    if_true, if_neg h1]

/-- Witness for C7: the spec's example URL. -/
theorem C7_construct_url_witness :
    construct_url_from_link "/best-colleges/example-university-1234" "academics" =
      "https://premium.usnews.com/best-colleges/example-university-1234/academics" := by
  rw [C7_construct_url "/best-colleges/example-university-1234" "academics"
    (by decide) (by decide) (by decide) (by decide)]
  decide

/-- The sequential replace passes plus final filter of `_slugify_name`
equal the single-pass characterisation `slug_spec_step`. -/
theorem slugify_aux (l : List Char) :
    (pyReplaceChar '.' [] (pyReplaceChar ',' [] (pyReplaceChar '&' ['a', 'n', 'd']
      (pyReplaceChar ' ' ['_'] l)))).filter keepChar = l.flatMap slug_spec_step := by
  induction l with
  | nil => rfl
  | cons a t ih =>
    have head : (pyReplaceChar '.' [] (pyReplaceChar ',' [] (pyReplaceChar '&'
        ['a', 'n', 'd'] (if a == ' ' then ['_'] else [a])))).filter keepChar =
        slug_spec_step a := by
      by_cases ha1 : a = ' '
      · subst ha1; decide
      · by_cases ha2 : a = '&'
        · subst ha2; decide
        · by_cases ha3 : a = ','
          · subst ha3; decide
          · by_cases ha4 : a = '.'
            · subst ha4; decide
            · simp only [pyReplaceChar, slug_spec_step, beq_iff_eq, ha1, ha2, ha3,
                ha4, if_false, List.flatMap_cons, List.flatMap_nil, List.append_nil,
                List.filter_cons, List.filter_nil]
              by_cases hk : keepChar a = true
              · simp [hk, ha3, ha4]
              · simp [hk, ha3, ha4]
    calc (pyReplaceChar '.' [] (pyReplaceChar ',' [] (pyReplaceChar '&' ['a', 'n', 'd']
          (pyReplaceChar ' ' ['_'] (a :: t))))).filter keepChar
        = (pyReplaceChar '.' [] (pyReplaceChar ',' [] (pyReplaceChar '&' ['a', 'n', 'd']
            (if a == ' ' then ['_'] else [a])))).filter keepChar ++
          (pyReplaceChar '.' [] (pyReplaceChar ',' [] (pyReplaceChar '&' ['a', 'n', 'd']
            (pyReplaceChar ' ' ['_'] t)))).filter keepChar := by
          simp only [pyReplaceChar, List.flatMap_cons, List.flatMap_append,
            List.filter_append]
      _ = slug_spec_step a ++ t.flatMap slug_spec_step := by rw [head, ih]
      _ = (a :: t).flatMap slug_spec_step := by rw [List.flatMap_cons]

/-- `_slugify_name` computes exactly the claim-side slug. -/
theorem slugify_eq_spec (name : String) : _slugify_name name = slug_spec name :=
  congrArg String.mk (slugify_aux name.data)

/-- C8: the directory/filename derivation is a pure function of the
university name and page type: the directory is the slug described by
the claim, and the filename is `main.html` for the empty page type, else
the page type with hyphens replaced by underscores plus `.html`. -/
theorem C8_filename_and_path (downloads_dir name pt : String) :
    generate_filename_and_path downloads_dir name pt =
      (downloads_dir ++ "/" ++ slug_spec name,
       if pt = "" then "main.html" else replaceChar pt '-' '_' ++ ".html") := by
  simp only [generate_filename_and_path, slugify_eq_spec]

/-- C9: applying an empty captured session returns `false` and performs
no driver interaction at all (no navigation, no storage writes, no
cookies); the modelled function is total, so nothing is raised. -/
theorem C9_empty_session_apply (driverPresent : Bool) (origins : List String) :
    apply_session_to_current_driver ⟨[], [], []⟩ driverPresent origins =
      (false, []) := by
  cases driverPresent <;> simp [apply_session_to_current_driver]

/-- The marker fold never increases the accumulator. -/
theorem widgetFold_mono (html : String) (ms : List String) (a : Nat) :
    ∃ j, ms.foldl (widgetStep html) (some a) = some j ∧ j ≤ a := by
  induction ms generalizing a with
  | nil => exact ⟨a, rfl, le_refl a⟩
  | cons m ms ih =>
    simp only [List.foldl_cons, widgetStep]
    cases hf : strFind html m with
    | none => exact ih a
    | some idx =>
      by_cases hlt : idx < a
      · simp only [if_pos hlt]
        obtain ⟨j, hj, hja⟩ := ih idx
        exact ⟨j, hj, hja.trans hlt.le⟩
      · simp only [if_neg hlt]
        exact ih a

/-- If some marker in `ms` occurs at offset `i`, the fold yields an
offset, and it is at most `i`. -/
theorem widgetFold_le (html : String) (ms : List String) (acc : Option Nat)
    (m : String) (i : Nat) (hm : m ∈ ms) (hf : strFind html m = some i) :
    ∃ j, ms.foldl (widgetStep html) acc = some j ∧ j ≤ i := by
  induction ms generalizing acc with
  | nil => cases hm
  | cons m' ms ih =>
    rcases List.mem_cons.mp hm with hEq | hmem
    · subst hEq
      simp only [List.foldl_cons, widgetStep, hf]
      cases acc with
      | none => exact widgetFold_mono html ms i
      | some e =>
        by_cases hlt : i < e
        · simp only [if_pos hlt]
          exact widgetFold_mono html ms i
        · simp only [if_neg hlt]
          obtain ⟨j, hj, hje⟩ := widgetFold_mono html ms e
          exact ⟨j, hj, hje.trans (Nat.le_of_not_lt hlt)⟩
    · simp only [List.foldl_cons]
      exact ih (widgetStep html acc m') hmem

/-- Any offset produced by the fold is the accumulator or the offset of
the first occurrence of some marker in `ms`. -/
theorem widgetFold_mem (html : String) (ms : List String) (acc : Option Nat)
    (j : Nat) (h : ms.foldl (widgetStep html) acc = some j) :
    acc = some j ∨ ∃ m ∈ ms, strFind html m = some j := by
  induction ms generalizing acc with
  | nil => exact Or.inl h
  | cons m ms ih =>
    simp only [List.foldl_cons] at h
    rcases ih _ h with hacc | ⟨m', hm', hf'⟩
    · cases hf : strFind html m with
      | none =>
        simp only [widgetStep, hf] at hacc
        exact Or.inl hacc
      | some idx =>
        cases acc with
        | none =>
          simp only [widgetStep, hf] at hacc
          exact Or.inr ⟨m, List.mem_cons_self .., hf.trans hacc⟩
        | some e =>
          simp only [widgetStep, hf] at hacc
          by_cases hlt : idx < e
          · rw [if_pos hlt] at hacc
            exact Or.inr ⟨m, List.mem_cons_self .., hf.trans hacc⟩
          · rw [if_neg hlt] at hacc
            exact Or.inl hacc
    · exact Or.inr ⟨m', List.mem_cons_of_mem _ hm', hf'⟩

/-- C5 (amended): whenever any marker occurs, `_find_widget_cut_index`
yields the earliest offset among the first occurrences of all markers;
with truncation enabled the content is cut there provided the offset is
positive, while a marker already at offset 0 leaves the content
unchanged. -/
theorem C5_widget_truncation (html : String) :
    (∀ m ∈ WIDGET_MARKERS, ∀ i, strFind html m = some i →
      ∃ j, _find_widget_cut_index html = some j ∧ j ≤ i) ∧
    (∀ j, _find_widget_cut_index html = some j →
      (∃ m ∈ WIDGET_MARKERS, strFind html m = some j) ∧
      (0 < j → widget_truncate html =
        ⟨html.data.take j⟩ ++ "\n<!-- Truncated before recommendations widget -->\n") ∧
      (j = 0 → widget_truncate html = html)) := by
  constructor
  · intro m hm i hf
    exact widgetFold_le html WIDGET_MARKERS none m i hm hf
  · intro j hj
    refine ⟨?_, ?_, ?_⟩
    · rcases widgetFold_mem html WIDGET_MARKERS none j hj with hacc | hmem
      · cases hacc
      · exact hmem
    · intro hpos
      simp only [widget_truncate, hj, if_pos hpos]
    · intro h0
      subst h0
      simp only [widget_truncate, hj, lt_irrefl, if_false]

/-- Witness for C5 at a concrete page: the null-widget marker occurs at
offset 3 and the content is cut there. -/
theorem C5_widget_truncation_witness :
    0 < 3 ∧ widget_truncate "ab null-recommendations-widget" =
      ⟨("ab null-recommendations-widget" : String).data.take 3⟩ ++
        "\n<!-- Truncated before recommendations widget -->\n" :=
  ⟨by decide,
   (((C5_widget_truncation "ab null-recommendations-widget").2 3 (by decide)).2.1
     (by decide))⟩

/-- Counterexample to C5 as stated: a page that consists of a marker at
offset 0 contains a known widget marker, truncation is enabled, and yet
the content is not cut at all. -/
theorem C5_marker_at_offset_zero_uncut :
    (∃ m ∈ WIDGET_MARKERS,
      strFind "blueshift-recommendations-widget" m = some 0) ∧
    truncPhase true (some "blueshift-recommendations-widget") =
      some "blueshift-recommendations-widget" := by
  constructor
  · exact ⟨"blueshift-recommendations-widget", by decide, by decide⟩
  · decide

/-- C3: within one university run, the first save of some content
writes exactly one file and records its hash; a second save of
byte-identical content (any page type) finds the hash in the store, is
skipped, and leaves the state — in particular the performed writes —
unchanged. -/
theorem C3_content_dedup (hashFn : String → String) (cfg : DlConfig)
    (n1 t1 n2 t2 content : String) (st : DlState)
    (h : hashFn content ∉ st.hashes) :
    save_html hashFn cfg n1 t1 (some content) st =
      (some ((generate_filename_and_path cfg.downloads_dir n1 t1).1 ++ "/" ++
             (generate_filename_and_path cfg.downloads_dir n1 t1).2),
       { st with
          hashes := hashFn content :: st.hashes,
          writes := ((generate_filename_and_path cfg.downloads_dir n1 t1).1 ++ "/" ++
                     (generate_filename_and_path cfg.downloads_dir n1 t1).2,
                     content) :: st.writes }) ∧
    (∀ r1 st1, save_html hashFn cfg n1 t1 (some content) st = (r1, st1) →
      save_html hashFn cfg n2 t2 (some content) st1 = (none, st1)) := by
  have first : save_html hashFn cfg n1 t1 (some content) st =
      (some ((generate_filename_and_path cfg.downloads_dir n1 t1).1 ++ "/" ++
             (generate_filename_and_path cfg.downloads_dir n1 t1).2),
       { st with
          hashes := hashFn content :: st.hashes,
          writes := ((generate_filename_and_path cfg.downloads_dir n1 t1).1 ++ "/" ++
                     (generate_filename_and_path cfg.downloads_dir n1 t1).2,
                     content) :: st.writes }) := by
    simp only [save_html, if_neg h]
  refine ⟨first, ?_⟩
  intro r1 st1 h1
  rw [first] at h1
  injection h1 with hr hs
  subst hs
  simp only [save_html]
  rw [if_pos (List.mem_cons_self ..)]

/-- Witness for C3: two byte-identical page contents within one
university run produce exactly one write. -/
theorem C3_content_dedup_witness :
    save_html (fun s => s) {} "Example University" "paying"
      (some "<html>x</html>") ⟨[], [], [], []⟩ =
      (some "downloads/Example_University/paying.html",
       ⟨[], [], ["<html>x</html>"],
        [("downloads/Example_University/paying.html", "<html>x</html>")]⟩) ∧
    save_html (fun s => s) {} "Example University" "academics"
      (some "<html>x</html>")
      ⟨[], [], ["<html>x</html>"],
       [("downloads/Example_University/paying.html", "<html>x</html>")]⟩ =
      (none,
       ⟨[], [], ["<html>x</html>"],
        [("downloads/Example_University/paying.html", "<html>x</html>")]⟩) := by
  have h := C3_content_dedup (fun s => s) {} "Example University" "paying"
    "Example University" "academics" "<html>x</html>" ⟨[], [], [], []⟩
    (by decide)
  exact ⟨h.1.trans (by decide), (h.2 _ _ h.1).trans (by decide)⟩

/-- C4: when the university's directory already holds at least as many
`.html` files as there are page types, `download_all_pages` returns the
existing file list, performs no write, consumes no navigation, and
sleeps no pacing delay. -/
theorem C4_existing_directory_gate (hashFn : String → String) (cfg : DlConfig)
    (unis : List UniInfo) (fs : List (String × List String)) (name : String)
    (env : List FetchOutcome) (relogins : List Bool) (info : UniInfo)
    (files : List String)
    (h1 : find_university_by_name unis name = some info)
    (h2 : fs.lookup (generate_filename_and_path cfg.downloads_dir info.name "").1 =
      some files)
    (h3 : PAGE_TYPES.length ≤ (files.filter (fun f => endsWithStr f ".html")).length) :
    download_all_pages hashFn cfg unis fs name env relogins =
      ⟨(files.filter (fun f => endsWithStr f ".html")).map
        (fun f => (generate_filename_and_path cfg.downloads_dir info.name "").1 ++ "/" ++ f),
       [], ⟨env, relogins, [], []⟩⟩ := by
  simp only [download_all_pages, h1, h2, if_pos h3]

/-- Witness for C4: the directory left behind by a run that saved every
page type (its seven generated filenames) makes an immediate second run
return those files untouched: no write, no navigation. -/
theorem C4_existing_directory_gate_witness :
    download_all_pages (fun s => s) {} [⟨"Example University", "/u-1"⟩]
      [("downloads/Example_University",
        ["main.html", "overall_rankings.html", "applying.html", "paying.html",
         "academics.html", "student_life.html", "campus_info.html"])]
      "Example" [⟨false, none, "", none⟩] [] =
      ⟨["downloads/Example_University/main.html",
        "downloads/Example_University/overall_rankings.html",
        "downloads/Example_University/applying.html",
        "downloads/Example_University/paying.html",
        "downloads/Example_University/academics.html",
        "downloads/Example_University/student_life.html",
        "downloads/Example_University/campus_info.html"],
       [], ⟨[⟨false, none, "", none⟩], [], [], []⟩⟩ :=
  (C4_existing_directory_gate (fun s => s) {} [⟨"Example University", "/u-1"⟩]
    [("downloads/Example_University",
      ["main.html", "overall_rankings.html", "applying.html", "paying.html",
       "academics.html", "student_life.html", "campus_info.html"])]
    "Example" [⟨false, none, "", none⟩] [] ⟨"Example University", "/u-1"⟩
    ["main.html", "overall_rankings.html", "applying.html", "paying.html",
     "academics.html", "student_life.html", "campus_info.html"]
    (by decide) (by decide) (by decide)).trans (by decide)

/-- C6 evidence: with the default configuration the pacing delay slept
after a successfully saved page type equals the delay slept after a
skipped one (both 15 seconds).  In the run below the first recorded
delay follows the successful main-page save and the remaining delays
follow skips, so the post-success delay is not strictly longer. -/
theorem C6_pacing_delays_equal :
    ({} : DlConfig).wait_success_seconds = ({} : DlConfig).wait_skip_seconds ∧
    (download_all_pages (fun s => s) {} [⟨"Example University", "/u-1"⟩] []
      "Example"
      [⟨true, some 200, "https://premium.usnews.com/u-1", some "<p>Sign out</p>"⟩,
       ⟨false, none, "", none⟩, ⟨false, none, "", none⟩, ⟨false, none, "", none⟩,
       ⟨false, none, "", none⟩, ⟨false, none, "", none⟩, ⟨false, none, "", none⟩]
      []).files = ["downloads/Example_University/main.html"] ∧
    (download_all_pages (fun s => s) {} [⟨"Example University", "/u-1"⟩] []
      "Example"
      [⟨true, some 200, "https://premium.usnews.com/u-1", some "<p>Sign out</p>"⟩,
       ⟨false, none, "", none⟩, ⟨false, none, "", none⟩, ⟨false, none, "", none⟩,
       ⟨false, none, "", none⟩, ⟨false, none, "", none⟩, ⟨false, none, "", none⟩]
      []).waits = [15, 15, 15, 15, 15, 15] := by
  refine ⟨rfl, ?_, ?_⟩ <;> decide

/-- C10: if the main (empty) page type's download fails, the
per-page-type loop stops at once — `download_all_pages` returns no files
and attempts no further page type; a failing non-main page type merely
moves the loop to the next page type (after the skip delay, unless it
was the last). -/
theorem C10_main_failure_stops_loop (hashFn : String → String) (cfg : DlConfig)
    (unis : List UniInfo) (fs : List (String × List String)) (name : String)
    (env : List FetchOutcome) (relogins : List Bool) (info : UniInfo)
    (st' : DlState) :
    ((find_university_by_name unis name = some info) →
     (fs.lookup (generate_filename_and_path cfg.downloads_dir info.name "").1 = none) →
     (download_university_page hashFn cfg info "" ⟨env, relogins, [], []⟩ =
       (none, st')) →
     download_all_pages hashFn cfg unis fs name env relogins = ⟨[], [], st'⟩) ∧
    (∀ (pt : String) (rest : List String) (acc : List String) (ws : List Nat)
        (st st1 : DlState), pt ≠ "" →
      download_university_page hashFn cfg info pt st = (none, st1) →
      pageLoop hashFn cfg info (pt :: rest) acc ws st =
        pageLoop hashFn cfg info rest acc
          (if rest = [] then ws else ws ++ [cfg.wait_skip_seconds]) st1) := by
  constructor
  · intro h1 h2 h3
    simp [download_all_pages, h1, h2, PAGE_TYPES, pageLoop, h3]
  · intro pt rest acc ws st st1 hpt hdl
    simp only [pageLoop, hdl]
    rw [if_neg hpt]

/-- Witness for C10: a failing main page makes the whole run return
empty-handed with the remaining environment untouched (no further page
type attempted). -/
theorem C10_main_failure_stops_loop_witness :
    download_all_pages (fun s => s) {} [⟨"Example University", "/u-1"⟩] [] "Example"
      [⟨false, none, "", none⟩,
       ⟨true, some 200, "https://u", some "<p>x</p>"⟩] [] =
      ⟨[], [], ⟨[⟨true, some 200, "https://u", some "<p>x</p>"⟩], [], [], []⟩⟩ :=
  (C10_main_failure_stops_loop (fun s => s) {} [⟨"Example University", "/u-1"⟩]
    [] "Example"
    [⟨false, none, "", none⟩, ⟨true, some 200, "https://u", some "<p>x</p>"⟩] []
    ⟨"Example University", "/u-1"⟩
    ⟨[⟨true, some 200, "https://u", some "<p>x</p>"⟩], [], [], []⟩).1
    (by decide) (by decide) (by decide)

/-- `navigate` on a nonempty environment consumes the head outcome. -/
theorem navigate_cons (f : FetchOutcome) (env : List FetchOutcome)
    (relogins : List Bool) (hashes : List String) (writes : List (String × String)) :
    navigate ⟨f :: env, relogins, hashes, writes⟩ =
      (if f.navOk then some f else none, ⟨env, relogins, hashes, writes⟩) := rfl

/-- A successful, non-error navigation exits the nav/error retry loop at
once with one outcome consumed. -/
theorem navErrorLoop_clean (fuel : Nat) (f : FetchOutcome) (env : List FetchOutcome)
    (relogins : List Bool) (hashes : List String) (writes : List (String × String))
    (hnav : f.navOk = true) (herr : is_error_response f.toNav = false) :
    navErrorLoop fuel ⟨f :: env, relogins, hashes, writes⟩ =
      (some f, ⟨env, relogins, hashes, writes⟩) := by
  rw [navErrorLoop.eq_def, navigate_cons, hnav]
  simp only [ite_true, herr, Bool.false_eq_true, if_false]

/-- A URL whose last segment matches, together with a canonical link
that does not contradict it, is not classified as redirected. -/
theorem redirected_false_of_match (pt url html : String) (hne : pt ≠ "")
    (hurl : _ends_with_segment url pt = true)
    (hcan : ∀ c, canonicalHref html = some c → _ends_with_segment c pt = true) :
    _redirected_to_main url html pt = false := by
  simp only [_redirected_to_main, if_neg hne, hurl]
  rw [if_neg (by simp)]
  cases hc : canonicalHref html with
  | none => rfl
  | some c => simp [hcan c hc]

/-- A nonempty URL whose last segment mismatches is classified as
redirected, whatever the canonical link says. -/
theorem redirected_true_of_mismatch (pt url html : String) (hne : pt ≠ "")
    (hurlne : url ≠ "") (hurl : _ends_with_segment url pt = false) :
    _redirected_to_main url html pt = true := by
  simp only [_redirected_to_main, if_neg hne]
  rw [if_pos ⟨hurlne, hurl⟩]

/-- When the first fetch is redirected and the single retried fetch is
still redirected (or yields no content), the redirect phase aborts. -/
theorem redirectPhase_still_redirected (pt url html : String) (g : FetchOutcome)
    (rest : List FetchOutcome) (relogins : List Bool) (hashes : List String)
    (writes : List (String × String)) (hne : pt ≠ "")
    (hredT : _redirected_to_main url html pt = true)
    (hgnav : g.navOk = true)
    (hgred : ∀ h2, g.source = some h2 → h2 ≠ "" → _redirected_to_main g.url h2 pt = true) :
    redirectPhase pt url html ⟨g :: rest, relogins, hashes, writes⟩ =
      (none, ⟨rest, relogins, hashes, writes⟩) := by
  simp only [redirectPhase, if_pos (And.intro hne hredT), navigate_cons, hgnav, ite_true]
  cases hg : g.source with
  | none => rfl
  | some h2 =>
    by_cases hh2 : h2 = ""
    · simp only [if_pos hh2]
    · simp only [if_neg hh2, hgred h2 hg hh2, ite_true]

/-- A fetch that is not redirected passes through the redirect phase
untouched. -/
theorem redirectPhase_clean (pt url html : String) (st : DlState)
    (hredF : _redirected_to_main url html pt = false) :
    redirectPhase pt url html st = (some html, st) := by
  simp only [redirectPhase]
  rw [if_neg (by simp [hredF])]

/-- C2 (amended): for a fetch of a non-main page type which navigates
successfully with readable, nonempty content — if the resulting URL's
last path segment differs from the page type (the canonical link also
lacking it) and the single session-reapply-and-retry is likewise
redirected, nothing is saved and no write happens; and if the URL's
last segment matches, the canonical link (when present) also matches,
the content passes the login check and its hash is fresh, the page is
saved. -/
theorem C2_redirect_gate (hashFn : String → String) (cfg : DlConfig)
    (uni : UniInfo) (pt : String) (f g : FetchOutcome) (rest : List FetchOutcome)
    (relogins : List Bool) (hashes : List String) (writes : List (String × String))
    (html : String)
    (hpt : pt ∈ PAGE_TYPES) (hne : pt ≠ "")
    (hnav : f.navOk = true) (herr : is_error_response f.toNav = false)
    (hsrc : f.source = some html) (hhtml : html ≠ "") :
    ((f.url ≠ "") → (_ends_with_segment f.url pt = false) →
     (∀ c, canonicalHref html = some c → _ends_with_segment c pt = false) →
     (g.navOk = true) →
     (∀ h2, g.source = some h2 → h2 ≠ "" → _redirected_to_main g.url h2 pt = true) →
     ((download_university_page hashFn cfg uni pt
         ⟨f :: g :: rest, relogins, hashes, writes⟩).1 = none ∧
      (download_university_page hashFn cfg uni pt
         ⟨f :: g :: rest, relogins, hashes, writes⟩).2.writes = writes)) ∧
    ((_ends_with_segment f.url pt = true) →
     (∀ c, canonicalHref html = some c → _ends_with_segment c pt = true) →
     (_check_login_status html = true) →
     (hashFn (if cfg.truncate_at_widget then widget_truncate html else html) ∉ hashes) →
     (download_university_page hashFn cfg uni pt ⟨f :: rest, relogins, hashes, writes⟩ =
       (some ((generate_filename_and_path cfg.downloads_dir uni.name pt).1 ++ "/" ++
              (generate_filename_and_path cfg.downloads_dir uni.name pt).2),
        ⟨rest, relogins,
         hashFn (if cfg.truncate_at_widget then widget_truncate html else html) :: hashes,
         ((generate_filename_and_path cfg.downloads_dir uni.name pt).1 ++ "/" ++
          (generate_filename_and_path cfg.downloads_dir uni.name pt).2,
          (if cfg.truncate_at_widget then widget_truncate html else html)) :: writes⟩))) := by
  have hext : extractContent f.source = some html := by
    rw [hsrc]; simp [extractContent, hhtml]
  constructor
  · intro hurlne hurlF hcanF hgnav hgred
    have hredT := redirected_true_of_mismatch pt f.url html hne hurlne hurlF
    have key : download_university_page hashFn cfg uni pt
        ⟨f :: g :: rest, relogins, hashes, writes⟩ =
        (none, ⟨rest, relogins, hashes, writes⟩) := by
      simp only [download_university_page, if_pos hpt,
        navErrorLoop_clean 3 f (g :: rest) relogins hashes writes hnav herr, hext,
        redirectPhase_still_redirected pt f.url html g rest relogins hashes writes
          hne hredT hgnav hgred]
    rw [key]
    exact ⟨rfl, rfl⟩
  · intro hurlT hcanT hlogin hmem
    have hredF := redirected_false_of_match pt f.url html hne hurlT hcanT
    have hlog : loginPhase ⟨rest, relogins, hashes, writes⟩ html =
        (some html, ⟨rest, relogins, hashes, writes⟩) := by
      simp only [loginPhase, hlogin, ite_true]
    have htr : truncPhase cfg.truncate_at_widget (some html) =
        some (if cfg.truncate_at_widget then widget_truncate html else html) := by
      cases hT : cfg.truncate_at_widget <;> simp [truncPhase, hT]
    simp only [download_university_page, if_pos hpt,
      navErrorLoop_clean 3 f rest relogins hashes writes hnav herr, hext,
      redirectPhase_clean pt f.url html ⟨rest, relogins, hashes, writes⟩ hredF,
      hlog, htr, save_html, if_neg hmem]

/-- Witness for C2: a matching fetch (no canonical link, logged-in
content, fresh hash) is saved. -/
theorem C2_redirect_gate_witness :
    download_university_page (fun s => s) {} ⟨"Example University", "/u-1"⟩ "paying"
      ⟨[⟨true, some 200, "https://x/u-1/paying", some "<p>Sign out</p>"⟩], [], [], []⟩ =
      (some "downloads/Example_University/paying.html",
       ⟨[], [], ["<p>Sign out</p>"],
        [("downloads/Example_University/paying.html", "<p>Sign out</p>")]⟩) := by
  have h := (C2_redirect_gate (fun s => s) {} ⟨"Example University", "/u-1"⟩ "paying"
      ⟨true, some 200, "https://x/u-1/paying", some "<p>Sign out</p>"⟩
      ⟨true, some 200, "", none⟩ [] [] [] [] "<p>Sign out</p>"
      (by decide) (by decide) (by decide) (by decide) (by decide) (by decide)).2
      (by decide)
      (by intro c hc
          rw [show canonicalHref "<p>Sign out</p>" = none from by decide] at hc
          cases hc)
      (by decide) (by decide)
  exact h.trans (by decide)

/-- Counterexample to C2 as stated: a fetch for page type `paying`
whose resulting URL does end with the `paying` segment, yet whose
canonical link points at `overview` — the claim says it is saved, but
the code skips it (returns no path and performs no write), both on the
first fetch and after the one retry. -/
theorem C2_url_match_canonical_mismatch_not_saved :
    _ends_with_segment "https://x/u-1/paying" "paying" = true ∧
    (download_university_page (fun s => s) {} ⟨"Example University", "/u-1"⟩ "paying"
      ⟨[⟨true, some 200, "https://x/u-1/paying",
         some "<link rel=\"canonical\" href=\"https://x/u-1/overview\">"⟩,
        ⟨true, some 200, "https://x/u-1/paying",
         some "<link rel=\"canonical\" href=\"https://x/u-1/overview\">"⟩],
       [], [], []⟩).1 = none ∧
    (download_university_page (fun s => s) {} ⟨"Example University", "/u-1"⟩ "paying"
      ⟨[⟨true, some 200, "https://x/u-1/paying",
         some "<link rel=\"canonical\" href=\"https://x/u-1/overview\">"⟩,
        ⟨true, some 200, "https://x/u-1/paying",
         some "<link rel=\"canonical\" href=\"https://x/u-1/overview\">"⟩],
       [], [], []⟩).2.writes = [] := by
  refine ⟨by decide, by decide, by decide⟩

end UsnewsCrawler
